import Mathlib

/-!
Verification development for the FloatChat query-processing core and its
chat-client frontend.

The query-processing core (Measurement Store, Validator, Query Classifier,
Filter & Aggregation Engine, Response Assembler) ships outside the frontend
tree, so those components are modelled here from the specification text;
each such definition carries a doc comment starting `Modelled from the spec:`.
The chat-client functions (`handleSubmit`, `sendMessage`, `openInNewTab`,
`downloadPlot`) are embedded directly from the React sources.

Numeric measurement fields are modelled as rationals; JavaScript strings are
modelled as `String` or as `List Char` where character-level reasoning
(trimming) is needed, and binary strings (the domain of `atob`/`btoa`) as
`List Nat` of byte values.
-/

/-- Modelled from the spec: §3 Measurement — immutable record of one float
measurement. `timestamp` is an epoch instant, modelled as a rational. -/
structure Measurement where
  profile_id : Nat
  latitude : ℚ
  longitude : ℚ
  timestamp : ℚ
  depth_m : ℚ
  pressure_dbar : ℚ
  temperature_c : ℚ
  salinity_psu : ℚ
deriving DecidableEq, Repr

/-- Modelled from the spec: §3 Dataset — an ordered collection of
Measurements. -/
abbrev Dataset := List Measurement

/-- Modelled from the spec: §3 FilterSpec — a value object with optional
bounds on depth, date range, lat/lon bounding box; an unset bound (`none`)
imposes no constraint. -/
structure FilterSpec where
  depthMin : Option ℚ := none
  depthMax : Option ℚ := none
  dateMin : Option ℚ := none
  dateMax : Option ℚ := none
  latMin : Option ℚ := none
  latMax : Option ℚ := none
  lonMin : Option ℚ := none
  lonMax : Option ℚ := none
deriving DecidableEq, Repr

/-- The empty FilterSpec: no bounds set. -/
def emptyFilterSpec : FilterSpec := {}

/-- An optional lower bound: `none` imposes no constraint. -/
def optLB (b : Option ℚ) (x : ℚ) : Bool :=
  match b with
  | none => true
  | some l => decide (l ≤ x)

/-- An optional upper bound: `none` imposes no constraint. -/
def optUB (b : Option ℚ) (x : ℚ) : Bool :=
  match b with
  | none => true
  | some u => decide (x ≤ u)

/-- Modelled from the spec: §4.4 — a Measurement matches a FilterSpec iff it
satisfies the conjunction (AND) of all specified bounds. -/
def matchesSpec (fs : FilterSpec) (m : Measurement) : Bool :=
  optLB fs.depthMin m.depth_m && optUB fs.depthMax m.depth_m &&
  optLB fs.dateMin m.timestamp && optUB fs.dateMax m.timestamp &&
  optLB fs.latMin m.latitude && optUB fs.latMax m.latitude &&
  optLB fs.lonMin m.longitude && optUB fs.lonMax m.longitude

/-- Modelled from the spec: §4.4 Filter & Aggregation Engine — the filtered
subsequence of a Dataset under a FilterSpec. -/
def applyFilter (fs : FilterSpec) (d : Dataset) : Dataset :=
  List.filter (matchesSpec fs) d

/-- Modelled from the spec: §4.4 — a statistics field is either a computed
value or the defined "no data" sentinel (not NaN, not absent). -/
inductive StatValue where
  | noData : StatValue
  | val : ℚ → StatValue
deriving DecidableEq, Repr

/-- Per-variable min/mean/max statistics. -/
structure VarStats where
  min : StatValue
  mean : StatValue
  max : StatValue
deriving DecidableEq, Repr

/-- Minimum of a list of rationals, "no data" sentinel when empty. -/
def listMin (l : List ℚ) : StatValue :=
  match l with
  | [] => StatValue.noData
  | x :: xs => StatValue.val (xs.foldl min x)

/-- Maximum of a list of rationals, "no data" sentinel when empty. -/
def listMax (l : List ℚ) : StatValue :=
  match l with
  | [] => StatValue.noData
  | x :: xs => StatValue.val (xs.foldl max x)

/-- Mean of a list of rationals, "no data" sentinel when empty. -/
def listMean (l : List ℚ) : StatValue :=
  match l with
  | [] => StatValue.noData
  | _ :: _ => StatValue.val (l.sum / (l.length : ℚ))

/-- min/mean/max of one variable column. -/
def varStatsOf (l : List ℚ) : VarStats :=
  { min := listMin l, mean := listMean l, max := listMax l }

/-- Modelled from the spec: §3 SummaryStatistics — count, per-variable
min/mean/max, date range (the `time` column) and geographic bounding box
(the `latitude`/`longitude` columns), computed from the rows. -/
structure SummaryStatistics where
  count : Nat
  temperature : VarStats
  salinity : VarStats
  depth : VarStats
  pressure : VarStats
  latitude : VarStats
  longitude : VarStats
  time : VarStats
deriving DecidableEq, Repr

/-- Modelled from the spec: §4.4 — compute SummaryStatistics over a (already
filtered) Dataset; every field of an empty Dataset is the sentinel. -/
def computeStats (d : Dataset) : SummaryStatistics :=
  { count := d.length
    temperature := varStatsOf (d.map Measurement.temperature_c)
    salinity := varStatsOf (d.map Measurement.salinity_psu)
    depth := varStatsOf (d.map Measurement.depth_m)
    pressure := varStatsOf (d.map Measurement.pressure_dbar)
    latitude := varStatsOf (d.map Measurement.latitude)
    longitude := varStatsOf (d.map Measurement.longitude)
    time := varStatsOf (d.map Measurement.timestamp) }

/-- A VarStats triple is ordered when all three fields are computed values
with `min ≤ mean ≤ max`. -/
def statsOrdered (vs : VarStats) : Prop :=
  ∃ a b c, vs.min = StatValue.val a ∧ vs.mean = StatValue.val b ∧
    vs.max = StatValue.val c ∧ a ≤ b ∧ b ≤ c

/-- The all-sentinel VarStats produced for an empty column. -/
def noDataVarStats : VarStats :=
  { min := StatValue.noData, mean := StatValue.noData, max := StatValue.noData }

/-- Does `sub` occur as a contiguous run inside `l`? -/
def hasInfixList : List Char → List Char → Bool
  | [], sub => sub.isEmpty
  | l@(_ :: cs), sub => sub.isPrefixOf l || hasInfixList cs sub

/-- Substring containment test used for keyword matching. -/
def containsSub (text kw : String) : Bool :=
  hasInfixList text.toList kw.toList

/-- Modelled from the spec: §4.3 — the data-query category lexicon
(temperature, salinity, map/geographic, trend/time-series keywords). The
exact lexicon is an implementer-chosen, documented mapping (§9). -/
def dataKeywords : List String :=
  ["temperature", "salinity", "map", "trend", "show", "plot", "depth",
   "profile", "compare", "relationship"]

/-- Modelled from the spec: §4.3 — the explanation category lexicon
("explain"/"what is"/"how does"). -/
def explKeywords : List String :=
  ["explain", "what is", "how does", "why"]

/-- Number of lexicon keywords present in the text. -/
def countMatches (text : String) (kws : List String) : Nat :=
  (kws.filter (fun k => containsSub text k)).length

/-- Modelled from the spec: §3 QueryIntent — enumerated variant over
{data_query, explanation, general}. -/
inductive QueryType where
  | data_query : QueryType
  | explanation : QueryType
  | general : QueryType
deriving DecidableEq, Repr

/-- A classified intent carrying its extracted FilterSpec (empty unless the
intent is `data_query`). -/
structure QueryIntent where
  qtype : QueryType
  fspec : FilterSpec
deriving DecidableEq, Repr

/-- Modelled from the spec: §4.3 — numeric and entity extraction populating
the FilterSpec (depth adjectives to depth bands, region names to bounding
boxes); the concrete bands/boxes are implementer-chosen configuration (§9). -/
def extractFilter (text : String) : FilterSpec :=
  { depthMin := if containsSub text "deep" then some 1000 else none
    depthMax := if containsSub text "shallow" then some 100 else none
    latMin := if containsSub text "atlantic" then some (-60) else none
    latMax := if containsSub text "atlantic" then some 70 else none
    lonMin := if containsSub text "atlantic" then some (-80) else none
    lonMax := if containsSub text "atlantic" then some 20 else none }

/-- Modelled from the spec: §4.3 Query Classifier — keyword scoring with the
fixed tie order {data_query, explanation, general}; unrecognized queries
default to `general` with an empty FilterSpec, never an error. -/
def classifyQuery (text : String) : QueryIntent :=
  let sd := countMatches text dataKeywords
  let se := countMatches text explKeywords
  if sd = 0 ∧ se = 0 then { qtype := QueryType.general, fspec := emptyFilterSpec }
  else if sd < se then { qtype := QueryType.explanation, fspec := emptyFilterSpec }
  else { qtype := QueryType.data_query, fspec := extractFilter text }

/-- Modelled from the spec: §3 PlotArtifact — an opaque self-contained
visualization payload, tagged when there is insufficient data (§4.5). -/
structure PlotArtifact where
  content : String
  insufficientData : Bool
deriving DecidableEq, Repr

/-- Modelled from the spec: §4.5 Visualization Generator — fewer than 2
points for a plot yields an artifact tagged "insufficient data" rather
than failing. -/
def makePlot (rows : Dataset) : PlotArtifact :=
  if rows.length < 2 then
    { content := "insufficient data", insufficientData := true }
  else
    { content := "plot of " ++ toString rows.length ++ " points",
      insufficientData := false }

/-- Modelled from the spec: §6 — the `options` record of `process_query`. -/
structure QueryOptions where
  include_visualization : Bool
deriving DecidableEq, Repr

/-- Modelled from the spec: §6 — the QueryResult record returned by
`process_query`: {text_response, plot_artifact_or_null,
summary_statistics_or_null, query_type}. -/
structure QueryResult where
  text_response : String
  plot_artifact : Option PlotArtifact
  summary_statistics : Option SummaryStatistics
  query_type : QueryType
deriving DecidableEq, Repr

/-- Render a StatValue for the templated summary. -/
def statValueText (v : StatValue) : String :=
  match v with
  | StatValue.noData => "no data"
  | StatValue.val q => toString q

/-- Modelled from the spec: §4.6 — the templated textual summary built
directly from SummaryStatistics, used when the narration collaborator is
unavailable or errors. -/
def templatedSummary (s : SummaryStatistics) : String :=
  "Found " ++ toString s.count ++ " measurements; temperature mean " ++
    statValueText s.temperature.mean ++ ", salinity mean " ++
    statValueText s.salinity.mean ++ "."

/-- Modelled from the spec: §4.6 — the narration prompt is built from the
intent and statistics, never from raw unfiltered data. -/
def buildPrompt (i : QueryIntent) (s : SummaryStatistics) : String :=
  "intent " ++ toString (repr i.qtype) ++ " over " ++ toString s.count ++
    " measurements"

/-- Modelled from the spec: §4.6 Response Assembler — request narrative text
from the external collaborator (an `Except`-valued capability, where
`.error` models a timeout or failure); on failure degrade to the templated
summary rather than failing the request. -/
def assembleText (gen : String → Except String String)
    (prompt fallback : String) : String :=
  match gen prompt with
  | Except.ok t => t
  | Except.error _ => fallback

/-- Modelled from the spec: §6 `process_query` — classify, filter, compute
statistics, optionally visualize, assemble. The result type is
`Except String QueryResult` so that "never raises an unhandled exception"
is the statement that the result is always `Except.ok`. -/
def process_query (gen : String → Except String String) (d : Dataset)
    (text : String) (opts : QueryOptions) : Except String QueryResult :=
  let i := classifyQuery text
  let rows := applyFilter i.fspec d
  let stats := computeStats rows
  let plot :=
    if opts.include_visualization && decide (i.qtype = QueryType.data_query)
    then some (makePlot rows) else none
  let resp := assembleText gen (buildPrompt i stats) (templatedSummary stats)
  Except.ok
    { text_response := resp
      plot_artifact := plot
      summary_statistics := some stats
      query_type := i.qtype }

/-- Modelled from the spec: §4.2 — a raw row as delivered by the storage
collaborator; required fields may be null (`none`). -/
structure RawRow where
  profile_id : Nat
  latitude : Option ℚ
  longitude : Option ℚ
  timestamp : Option ℚ
  depth_m : Option ℚ
  pressure_dbar : Option ℚ
  temperature_c : Option ℚ
  salinity_psu : Option ℚ
deriving DecidableEq, Repr

/-- Modelled from the spec: §3 — the physical-range check:
-90 ≤ latitude ≤ 90, -180 ≤ longitude ≤ 180, 0 ≤ depth ≤ 6000,
-2 ≤ temperature ≤ 40, 20 ≤ salinity ≤ 45. -/
def rangeOk (lat lon dep tem sal : ℚ) : Bool :=
  decide (-90 ≤ lat) && decide (lat ≤ 90) &&
  decide (-180 ≤ lon) && decide (lon ≤ 180) &&
  decide (0 ≤ dep) && decide (dep ≤ 6000) &&
  decide (-2 ≤ tem) && decide (tem ≤ 40) &&
  decide (20 ≤ sal) && decide (sal ≤ 45)

/-- Modelled from the spec: §4.2 (b)(c) — null check then per-row range
validation; a violating row yields `none` (dropped, not fatal). -/
def validateRow (r : RawRow) : Option Measurement :=
  r.latitude.bind fun lat =>
  r.longitude.bind fun lon =>
  r.timestamp.bind fun ts =>
  r.depth_m.bind fun dep =>
  r.pressure_dbar.bind fun pres =>
  r.temperature_c.bind fun tem =>
  r.salinity_psu.bind fun sal =>
  if rangeOk lat lon dep tem sal then
    some { profile_id := r.profile_id, latitude := lat, longitude := lon,
           timestamp := ts, depth_m := dep, pressure_dbar := pres,
           temperature_c := tem, salinity_psu := sal }
  else none

/-- The duplicate key `(profile_id, depth_m, timestamp)` of §3. -/
def mKey (m : Measurement) : Nat × ℚ × ℚ :=
  (m.profile_id, m.depth_m, m.timestamp)

/-- Modelled from the spec: §4.2 (e) — pressure–depth consistency within
tolerance (soft violation, flagged but not dropped); the tolerance is
implementer-chosen configuration. -/
def softViolation (m : Measurement) : Bool :=
  decide (m.pressure_dbar < m.depth_m - 50) ||
  decide (m.depth_m + 50 < m.pressure_dbar)

/-- Modelled from the spec: §4.2 Validator — walk the raw rows keeping the
set of keys already seen; dropped rows (null, out of range, or later
duplicates) increment `rejected`, soft pressure–depth violations are
counted but kept. Returns `(Dataset, rejected_count, soft_violation_count)`. -/
def validateAux : List RawRow → List (Nat × ℚ × ℚ) → Dataset × Nat × Nat
  | [], _ => ([], 0, 0)
  | r :: rs, seen =>
    match validateRow r with
    | none =>
      let out := validateAux rs seen
      (out.1, out.2.1 + 1, out.2.2)
    | some m =>
      if mKey m ∈ seen then
        let out := validateAux rs seen
        (out.1, out.2.1 + 1, out.2.2)
      else
        let out := validateAux rs (mKey m :: seen)
        (m :: out.1, out.2.1, out.2.2 + if softViolation m then 1 else 0)

/-- Modelled from the spec: §4.2 — the Validator entry point. -/
def validate (rows : List RawRow) : Dataset × Nat × Nat :=
  validateAux rows []

/-- The §3 range invariants as a proposition on a Measurement. -/
def measurementInvariants (m : Measurement) : Prop :=
  -90 ≤ m.latitude ∧ m.latitude ≤ 90 ∧
  -180 ≤ m.longitude ∧ m.longitude ≤ 180 ∧
  0 ≤ m.depth_m ∧ m.depth_m ≤ 6000 ∧
  -2 ≤ m.temperature_c ∧ m.temperature_c ≤ 40 ∧
  20 ≤ m.salinity_psu ∧ m.salinity_psu ≤ 45

/-! ### Chat-client embedding (from the React sources)

`jsTrim` models JavaScript `String.prototype.trim` on `List Char`;
`handleSubmit` embeds `InputBox.handleSubmit`
(`if (message.trim() && !disabled) onSendMessage(message.trim())`), and
`sendMessage` embeds `App.sendMessage`
(`if (!message.trim()) return; axios.post(..., { message: message, ... })`),
returning the `message` field of the issued request, or `none` when no
request is issued. -/

/-- Drop leading whitespace characters. -/
def trimLeftC : List Char → List Char
  | [] => []
  | c :: cs => if c.isWhitespace then trimLeftC cs else c :: cs

/-- Drop trailing whitespace characters. -/
def trimRightC (l : List Char) : List Char :=
  (trimLeftC l.reverse).reverse

/-- JavaScript `trim`: drop leading and trailing whitespace. -/
def jsTrim (l : List Char) : List Char :=
  trimRightC (trimLeftC l)

/-- JavaScript string truthiness: the empty string is falsy. -/
def strTruthy (l : List Char) : Bool :=
  !l.isEmpty

/-- Embeds `InputBox.handleSubmit`: when `message.trim()` is truthy and the
input is not disabled, pass `message.trim()` to `onSendMessage`. -/
def handleSubmit (message : List Char) (disabled : Bool) : Option (List Char) :=
  if strTruthy (jsTrim message) && !disabled then some (jsTrim message)
  else none

/-- Embeds `App.sendMessage`: guard `if (!message.trim()) return;`, then
issue the HTTP request with `message` as its `message` field. -/
def sendMessage (message : List Char) : Option (List Char) :=
  if !strTruthy (jsTrim message) then none
  else some message

/-- The composed client path: `handleSubmit` feeding `onSendMessage`, which
`App` binds to `sendMessage`. Returns the `message` field of the request
issued to the backend, or `none` when no request is issued. -/
def clientSubmit (s : List Char) (disabled : Bool) : Option (List Char) :=
  match handleSubmit s disabled with
  | none => none
  | some t => sendMessage t

/-! ### Base64 (`btoa`/`atob`) and the PlotDisplay embedding -/

/-- The base64 alphabet in index order. -/
def b64chars : List Char :=
  "ABCDEFGHIJKLMNOPQRSTUVWXYZabcdefghijklmnopqrstuvwxyz0123456789+/".toList

/-- The character encoding a 6-bit group. -/
def encChar (n : Nat) : Char :=
  b64chars.getD n 'A'

/-- The 6-bit group encoded by an alphabet character. -/
def decChar (c : Char) : Nat :=
  b64chars.indexOf c

/-- `btoa`: standard base64 encoding of a byte sequence, with `=` padding. -/
def btoa : List Nat → List Char
  | [] => []
  | [a] =>
    [encChar (a / 4), encChar (a % 4 * 16), '=', '=']
  | [a, b] =>
    [encChar (a / 4), encChar (a % 4 * 16 + b / 16), encChar (b % 16 * 4), '=']
  | a :: b :: c :: rest =>
    encChar (a / 4) :: encChar (a % 4 * 16 + b / 16) ::
      encChar (b % 16 * 4 + c / 64) :: encChar (c % 64) :: btoa rest

/-- Decode one 4-character base64 chunk, honouring `=` padding. -/
def decodeChunk4 (c1 c2 c3 c4 : Char) : List Nat :=
  if c3 = '=' then
    [decChar c1 * 4 + decChar c2 / 16]
  else if c4 = '=' then
    [decChar c1 * 4 + decChar c2 / 16, decChar c2 % 16 * 16 + decChar c3 / 4]
  else
    [decChar c1 * 4 + decChar c2 / 16, decChar c2 % 16 * 16 + decChar c3 / 4,
     decChar c3 % 4 * 64 + decChar c4]

/-- `atob`: standard base64 decoding on well-formed input (length a multiple
of four, `=` only as final padding); on other inputs the browser throws, and
this model's value there is irrelevant to the claims. -/
def atob : List Char → List Nat
  | c1 :: c2 :: c3 :: c4 :: rest => decodeChunk4 c1 c2 c3 c4 ++ atob rest
  | _ => []

/-- The data-URL marker tested by `PlotDisplay`. -/
def plotUrlMarker : List Char :=
  "data:text/html;base64,".toList

/-- The observable action a PlotDisplay button performs. -/
inductive PlotAction where
  | writesHtml : List Nat → PlotAction
  | opensUrl : List Char → PlotAction
deriving DecidableEq

/-- Embeds `PlotDisplay.openInNewTab`: when the URL starts with
`data:text/html;base64,`, strip that marker (JavaScript
`replace(marker, '')` removes its first occurrence, here the leading one),
`atob`-decode the rest and write the HTML into a new window; otherwise
`window.open(plotUrl)`. -/
def openInNewTab (plotUrl : List Char) : PlotAction :=
  if plotUrlMarker.isPrefixOf plotUrl then
    PlotAction.writesHtml (atob (plotUrl.drop plotUrlMarker.length))
  else
    PlotAction.opensUrl plotUrl

/-- The observable action of the download button. -/
inductive DownloadAction where
  | downloadsBlob : List Nat → DownloadAction
  | downloadsUrl : List Char → DownloadAction
deriving DecidableEq

/-- Embeds `PlotDisplay.downloadPlot`: when the URL starts with
`data:text/html;base64,`, strip the marker, `atob`-decode the rest and
download it as a Blob; otherwise download the URL itself. -/
def downloadPlot (plotUrl : List Char) : DownloadAction :=
  if plotUrlMarker.isPrefixOf plotUrl then
    DownloadAction.downloadsBlob (atob (plotUrl.drop plotUrlMarker.length))
  else
    DownloadAction.downloadsUrl plotUrl

/-! ### Concrete data used to instantiate the theorems -/

/-- A small in-range dataset: one mid-depth and one deep measurement. -/
def demoDataset : Dataset :=
  [{ profile_id := 1, latitude := 10, longitude := -30, timestamp := 0,
     depth_m := 100, pressure_dbar := 101, temperature_c := 15,
     salinity_psu := 35 },
   { profile_id := 1, latitude := 12, longitude := -28, timestamp := 1,
     depth_m := 5950, pressure_dbar := 5980, temperature_c := 2,
     salinity_psu := 34 }]

/-- A dataset whose rows are all shallower than 5900 m. -/
def shallowDataset : Dataset :=
  [{ profile_id := 2, latitude := 0, longitude := 0, timestamp := 0,
     depth_m := 100, pressure_dbar := 100, temperature_c := 20,
     salinity_psu := 35 },
   { profile_id := 2, latitude := 1, longitude := 1, timestamp := 1,
     depth_m := 200, pressure_dbar := 200, temperature_c := 18,
     salinity_psu := 35 }]

/-- The depth-range 5900 m – 6000 m FilterSpec of the spec's edge-case test. -/
def deepFilter : FilterSpec :=
  { depthMin := some 5900, depthMax := some 6000 }

/-- One well-formed raw row. -/
def demoRaw : RawRow :=
  { profile_id := 7, latitude := some 45, longitude := some (-20),
    timestamp := some 3, depth_m := some 1000, pressure_dbar := some 1010,
    temperature_c := some 4, salinity_psu := some 35 }

/-- The Measurement produced from `demoRaw`. -/
def demoMeasurement : Measurement :=
  { profile_id := 7, latitude := 45, longitude := -20, timestamp := 3,
    depth_m := 1000, pressure_dbar := 1010, temperature_c := 4,
    salinity_psu := 35 }

/-! ### Helper lemmas: list minima, maxima and means -/

theorem foldl_min_le (xs : List ℚ) :
    ∀ (x : ℚ), ∀ y ∈ x :: xs, xs.foldl min x ≤ y := by
  induction xs with
  | nil =>
    intro x y hy
    simp only [List.mem_singleton] at hy
    simp [hy]
  | cons z zs ih =>
    intro x y hy
    simp only [List.foldl_cons]
    have hinit : zs.foldl min (min x z) ≤ min x z :=
      ih (min x z) (min x z) (List.mem_cons_self _ _)
    rcases List.mem_cons.mp hy with h1 | h2
    · subst h1
      exact hinit.trans (min_le_left _ _)
    · rcases List.mem_cons.mp h2 with h3 | h4
      · subst h3
        exact hinit.trans (min_le_right _ _)
      · exact ih (min x z) y (List.mem_cons_of_mem _ h4)

theorem le_foldl_max (xs : List ℚ) :
    ∀ (x : ℚ), ∀ y ∈ x :: xs, y ≤ xs.foldl max x := by
  induction xs with
  | nil =>
    intro x y hy
    simp only [List.mem_singleton] at hy
    simp [hy]
  | cons z zs ih =>
    intro x y hy
    simp only [List.foldl_cons]
    have hinit : max x z ≤ zs.foldl max (max x z) :=
      ih (max x z) (max x z) (List.mem_cons_self _ _)
    rcases List.mem_cons.mp hy with h1 | h2
    · subst h1
      exact (le_max_left _ _).trans hinit
    · rcases List.mem_cons.mp h2 with h3 | h4
      · subst h3
        exact (le_max_right _ _).trans hinit
      · exact ih (max x z) y (List.mem_cons_of_mem _ h4)

theorem mul_length_le_sum (a : ℚ) (l : List ℚ) (h : ∀ y ∈ l, a ≤ y) :
    a * (l.length : ℚ) ≤ l.sum := by
  induction l with
  | nil => simp
  | cons y ys ih =>
    have h1 : a ≤ y := h y (List.mem_cons_self _ _)
    have h2 : a * (ys.length : ℚ) ≤ ys.sum :=
      ih (fun z hz => h z (List.mem_cons_of_mem _ hz))
    simp only [List.sum_cons, List.length_cons]
    push_cast
    linarith

theorem sum_le_mul_length (a : ℚ) (l : List ℚ) (h : ∀ y ∈ l, y ≤ a) :
    l.sum ≤ a * (l.length : ℚ) := by
  induction l with
  | nil => simp
  | cons y ys ih =>
    have h1 : y ≤ a := h y (List.mem_cons_self _ _)
    have h2 : ys.sum ≤ a * (ys.length : ℚ) :=
      ih (fun z hz => h z (List.mem_cons_of_mem _ hz))
    simp only [List.sum_cons, List.length_cons]
    push_cast
    linarith

theorem varStatsOf_ordered (l : List ℚ) (h : l ≠ []) :
    statsOrdered (varStatsOf l) := by
  obtain ⟨x, xs, rfl⟩ := List.exists_cons_of_ne_nil h
  have hlen : (0 : ℚ) < ((x :: xs).length : ℚ) := by
    simp only [List.length_cons]
    push_cast
    positivity
  refine ⟨xs.foldl min x, (x :: xs).sum / ((x :: xs).length : ℚ),
    xs.foldl max x, rfl, rfl, rfl, ?_, ?_⟩
  · rw [le_div_iff₀ hlen]
    exact mul_length_le_sum _ _ (foldl_min_le xs x)
  · rw [div_le_iff₀ hlen]
    exact sum_le_mul_length _ _ (le_foldl_max xs x)

/-! ### Helper lemmas: trimming -/

theorem trimLeftC_head (l : List Char) :
    trimLeftC l = [] ∨
      ∃ c cs, trimLeftC l = c :: cs ∧ c.isWhitespace = false := by
  induction l with
  | nil => exact Or.inl rfl
  | cons c cs ih =>
    by_cases hw : c.isWhitespace
    · simpa [trimLeftC, hw] using ih
    · exact Or.inr ⟨c, cs, by simp [trimLeftC, hw], by simp [hw]⟩

theorem trimLeftC_fix (l : List Char) : trimLeftC (trimLeftC l) = trimLeftC l := by
  rcases trimLeftC_head l with h | ⟨c, cs, heq, hw⟩
  · rw [h]
    rfl
  · rw [heq]
    simp [trimLeftC, hw]

theorem trimLeftC_suffix (l : List Char) : ∃ t, t ++ trimLeftC l = l := by
  induction l with
  | nil => exact ⟨[], rfl⟩
  | cons c cs ih =>
    by_cases hw : c.isWhitespace
    · obtain ⟨t, ht⟩ := ih
      exact ⟨c :: t, by simp [trimLeftC, hw, ht]⟩
    · exact ⟨[], by simp [trimLeftC, hw]⟩

theorem trimRightC_prefix (l : List Char) : ∃ t, trimRightC l ++ t = l := by
  obtain ⟨t, ht⟩ := trimLeftC_suffix l.reverse
  refine ⟨t.reverse, ?_⟩
  have := congrArg List.reverse ht
  simpa [trimRightC] using this

theorem trimRightC_fix (l : List Char) :
    trimRightC (trimRightC l) = trimRightC l := by
  simp [trimRightC, List.reverse_reverse, trimLeftC_fix]

theorem trimLeftC_of_trimmed (l : List Char) :
    trimLeftC (trimRightC (trimLeftC l)) = trimRightC (trimLeftC l) := by
  rcases trimLeftC_head l with h | ⟨c, cs, heq, hw⟩
  · rw [h]
    rfl
  · rw [heq]
    obtain ⟨t, ht⟩ := trimRightC_prefix (c :: cs)
    cases hr : trimRightC (c :: cs) with
    | nil => rfl
    | cons d ds =>
      rw [hr] at ht
      have hd : d = c := by
        simpa using congrArg List.head? ht
      subst hd
      simp [trimLeftC, hw]

theorem jsTrim_idem (l : List Char) : jsTrim (jsTrim l) = jsTrim l := by
  unfold jsTrim
  rw [trimLeftC_of_trimmed, trimRightC_fix]

theorem trimLeftC_eq_nil_iff (l : List Char) :
    trimLeftC l = [] ↔ ∀ c ∈ l, c.isWhitespace = true := by
  induction l with
  | nil => simp [trimLeftC]
  | cons c cs ih =>
    by_cases hw : c.isWhitespace
    · simp [trimLeftC, hw, ih]
    · simp [trimLeftC, hw]

theorem jsTrim_eq_nil_iff (l : List Char) :
    jsTrim l = [] ↔ ∀ c ∈ l, c.isWhitespace = true := by
  unfold jsTrim trimRightC
  constructor
  · intro h
    have h1 : trimLeftC ((trimLeftC l).reverse) = [] := by
      have := congrArg List.reverse h
      simpa using this
    have h2 : ∀ c ∈ (trimLeftC l).reverse, c.isWhitespace = true :=
      (trimLeftC_eq_nil_iff _).mp h1
    have h3 : ∀ c ∈ trimLeftC l, c.isWhitespace = true := by
      intro c hc
      exact h2 c (List.mem_reverse.mpr hc)
    have h4 : trimLeftC (trimLeftC l) = [] := (trimLeftC_eq_nil_iff _).mpr h3
    rw [trimLeftC_fix] at h4
    exact (trimLeftC_eq_nil_iff _).mp h4
  · intro h
    have h1 : trimLeftC l = [] := (trimLeftC_eq_nil_iff _).mpr h
    rw [h1]
    rfl

/-! ### Helper lemmas: base64 -/

theorem pad_not_mem_b64chars : '=' ∉ b64chars := by decide

theorem encChar_ne_pad (n : Nat) : encChar n ≠ '=' := by
  by_cases h : n < b64chars.length
  · have hmem : encChar n ∈ b64chars := by
      rw [encChar, List.getD_eq_getElem b64chars 'A' h]
      exact List.getElem_mem h
    intro heq
    exact pad_not_mem_b64chars (heq ▸ hmem)
  · rw [encChar, List.getD_eq_default b64chars 'A' (Nat.le_of_not_lt h)]
    decide

theorem dec_enc : ∀ n : Nat, n < 64 → decChar (encChar n) = n := by decide

theorem atob_btoa : ∀ l : List Nat, (∀ x ∈ l, x < 256) → atob (btoa l) = l
  | [], _ => rfl
  | [a], h => by
    have ha : a < 256 := h a (by simp)
    simp only [btoa, atob, decodeChunk4, if_true, eq_self_iff_true,
      List.append_nil]
    rw [dec_enc (a / 4) (by omega), dec_enc (a % 4 * 16) (by omega)]
    simp only [List.cons.injEq, eq_self_iff_true, and_true]
    omega
  | [a, b], h => by
    have ha : a < 256 := h a (by simp)
    have hb : b < 256 := h b (by simp)
    simp only [btoa, atob, decodeChunk4,
      if_neg (encChar_ne_pad (b % 16 * 4)), if_true, eq_self_iff_true,
      List.append_nil]
    rw [dec_enc (a / 4) (by omega), dec_enc (a % 4 * 16 + b / 16) (by omega),
      dec_enc (b % 16 * 4) (by omega)]
    simp only [List.cons.injEq, eq_self_iff_true, and_true]
    omega
  | a :: b :: c :: rest, h => by
    have ha : a < 256 := h a (by simp)
    have hb : b < 256 := h b (by simp)
    have hc : c < 256 := h c (by simp)
    have ih : atob (btoa rest) = rest :=
      atob_btoa rest (fun x hx => h x (by simp [hx]))
    simp only [btoa, atob, decodeChunk4,
      if_neg (encChar_ne_pad (b % 16 * 4 + c / 64)),
      if_neg (encChar_ne_pad (c % 64)), ih]
    rw [dec_enc (a / 4) (by omega), dec_enc (a % 4 * 16 + b / 16) (by omega),
      dec_enc (b % 16 * 4 + c / 64) (by omega), dec_enc (c % 64) (by omega)]
    simp only [List.cons_append, List.nil_append, List.cons.injEq,
      eq_self_iff_true, and_true]
    omega

/-! ### Helper lemmas: the Validator -/

theorem validateRow_invariants (r : RawRow) (m : Measurement)
    (h : validateRow r = some m) : measurementInvariants m := by
  simp only [validateRow, Option.bind_eq_some] at h
  obtain ⟨lat, hlat, lon, hlon, ts, hts, dep, hdep, pres, hpres, tem, htem,
    sal, hsal, hif⟩ := h
  by_cases hr : rangeOk lat lon dep tem sal
  · rw [if_pos hr] at hif
    simp only [rangeOk, Bool.and_eq_true, decide_eq_true_eq] at hr
    injection hif with hm
    subst hm
    simp only [measurementInvariants]
    tauto
  · rw [if_neg hr] at hif
    exact absurd hif (by simp)

theorem validateAux_invariants :
    ∀ (rows : List RawRow) (seen : List (Nat × ℚ × ℚ)) (m : Measurement),
      m ∈ (validateAux rows seen).1 → measurementInvariants m := by
  intro rows
  induction rows with
  | nil =>
    intro seen m hm
    simp [validateAux] at hm
  | cons r rs ih =>
    intro seen m hm
    cases hv : validateRow r with
    | none =>
      simp only [validateAux, hv] at hm
      exact ih seen m hm
    | some m' =>
      by_cases hk : mKey m' ∈ seen
      · simp only [validateAux, hv, if_pos hk] at hm
        exact ih seen m hm
      · simp only [validateAux, hv, if_neg hk] at hm
        rcases List.mem_cons.mp hm with h1 | h2
        · subst h1
          exact validateRow_invariants r m hv
        · exact ih (mKey m' :: seen) m h2

theorem templatedSummary_ne_empty (s : SummaryStatistics) :
    templatedSummary s ≠ "" := by
  intro h
  have hlen := congrArg String.length h
  simp [templatedSummary, String.length_append] at hlen
  obtain ⟨⟨⟨⟨⟨⟨hF, -⟩, -⟩, -⟩, -⟩, -⟩, -⟩ := hlen
  exact absurd hF (by decide)

/-! ### The claims -/

/-- Claim C1: for every Dataset and FilterSpec whose filtered result is
non-empty, the computed SummaryStatistics satisfy min ≤ mean ≤ max for every
numeric variable (temperature, salinity, depth, pressure, latitude,
longitude). -/
theorem c1_filtered_stats_ordered (d : Dataset) (fs : FilterSpec)
    (h : applyFilter fs d ≠ []) :
    statsOrdered (computeStats (applyFilter fs d)).temperature ∧
    statsOrdered (computeStats (applyFilter fs d)).salinity ∧
    statsOrdered (computeStats (applyFilter fs d)).depth ∧
    statsOrdered (computeStats (applyFilter fs d)).pressure ∧
    statsOrdered (computeStats (applyFilter fs d)).latitude ∧
    statsOrdered (computeStats (applyFilter fs d)).longitude := by
  have hmap : ∀ f : Measurement → ℚ, (applyFilter fs d).map f ≠ [] :=
    fun f hn => h (List.map_eq_nil_iff.mp hn)
  exact ⟨varStatsOf_ordered _ (hmap _), varStatsOf_ordered _ (hmap _),
    varStatsOf_ordered _ (hmap _), varStatsOf_ordered _ (hmap _),
    varStatsOf_ordered _ (hmap _), varStatsOf_ordered _ (hmap _)⟩

/-- Witness for C1 at a concrete dataset and filter. -/
theorem c1_filtered_stats_ordered_witness :
    statsOrdered (computeStats (applyFilter deepFilter demoDataset)).temperature ∧
    statsOrdered (computeStats (applyFilter deepFilter demoDataset)).salinity ∧
    statsOrdered (computeStats (applyFilter deepFilter demoDataset)).depth ∧
    statsOrdered (computeStats (applyFilter deepFilter demoDataset)).pressure ∧
    statsOrdered (computeStats (applyFilter deepFilter demoDataset)).latitude ∧
    statsOrdered (computeStats (applyFilter deepFilter demoDataset)).longitude :=
  c1_filtered_stats_ordered demoDataset deepFilter (by decide)

/-- Claim C2: the filtered result is a subsequence of the input Dataset,
re-filtering with the same FilterSpec is idempotent, matching is the
conjunction of all per-bound checks, and an unset (`none`) bound imposes no
constraint. -/
theorem c2_filter_subset_idem_conj (d : Dataset) (fs : FilterSpec) :
    List.Sublist (applyFilter fs d) d ∧
    applyFilter fs (applyFilter fs d) = applyFilter fs d ∧
    (∀ m : Measurement, matchesSpec fs m =
      (optLB fs.depthMin m.depth_m && optUB fs.depthMax m.depth_m &&
       optLB fs.dateMin m.timestamp && optUB fs.dateMax m.timestamp &&
       optLB fs.latMin m.latitude && optUB fs.latMax m.latitude &&
       optLB fs.lonMin m.longitude && optUB fs.lonMax m.longitude)) ∧
    (∀ x : ℚ, optLB none x = true ∧ optUB none x = true) := by
  refine ⟨List.filter_sublist _, ?_, fun m => rfl, fun x => ⟨rfl, rfl⟩⟩
  simp [applyFilter, List.filter_filter]

/-- Claim C3: `process_query` is total — for every narration collaborator,
dataset, input string and options it returns `Except.ok` with a QueryResult
carrying the classified query type and the computed statistics; no unhandled
exception escapes. -/
theorem c3_process_query_total (gen : String → Except String String)
    (d : Dataset) (text : String) (opts : QueryOptions) :
    ∃ qr : QueryResult, process_query gen d text opts = Except.ok qr ∧
      qr.query_type = (classifyQuery text).qtype ∧
      qr.summary_statistics =
        some (computeStats (applyFilter (classifyQuery text).fspec d)) :=
  ⟨_, rfl, rfl, rfl⟩

/-- Claim C4: a FilterSpec admitting zero rows yields count = 0 and every
statistics field equal to the "no data" sentinel — not NaN, not absent, not
an error. -/
theorem c4_empty_result_sentinel (d : Dataset) (fs : FilterSpec)
    (h : applyFilter fs d = []) :
    (computeStats (applyFilter fs d)).count = 0 ∧
    computeStats (applyFilter fs d) =
      { count := 0, temperature := noDataVarStats, salinity := noDataVarStats,
        depth := noDataVarStats, pressure := noDataVarStats,
        latitude := noDataVarStats, longitude := noDataVarStats,
        time := noDataVarStats } := by
  rw [h]
  exact ⟨rfl, rfl⟩

/-- Witness for C4: the spec's depth 5900 m – 6000 m example on a dataset
with no such rows. -/
theorem c4_empty_result_sentinel_witness :
    (computeStats (applyFilter deepFilter shallowDataset)).count = 0 ∧
    computeStats (applyFilter deepFilter shallowDataset) =
      { count := 0, temperature := noDataVarStats, salinity := noDataVarStats,
        depth := noDataVarStats, pressure := noDataVarStats,
        latitude := noDataVarStats, longitude := noDataVarStats,
        time := noDataVarStats } :=
  c4_empty_result_sentinel shallowDataset deepFilter (by decide)

/-- Claim C5: the empty FilterSpec returns the full Dataset and its
statistics equal those computed over the whole Dataset. -/
theorem c5_empty_filterspec (d : Dataset) :
    applyFilter emptyFilterSpec d = d ∧
    computeStats (applyFilter emptyFilterSpec d) = computeStats d := by
  have h : applyFilter emptyFilterSpec d = d := by
    simp [applyFilter, matchesSpec, emptyFilterSpec, optLB, optUB]
  exact ⟨h, by rw [h]⟩

/-- Claim C6: every Measurement in the Validator's output Dataset satisfies
the §3 range invariants; a raw row violating a bound is never admitted. -/
theorem c6_validator_invariants (rows : List RawRow) (m : Measurement)
    (h : m ∈ (validate rows).1) : measurementInvariants m :=
  validateAux_invariants rows [] m h

/-- Witness for C6 at a concrete raw row. -/
theorem c6_validator_invariants_witness : measurementInvariants demoMeasurement :=
  c6_validator_invariants [demoRaw] demoMeasurement (by decide)

/-- Claim C7: the Query Classifier is total; unrecognized queries map to the
`general` intent with an empty FilterSpec, and equal scores resolve in the
fixed order data_query, explanation, general. -/
theorem c7_classifier_total_default_tie (text : String) :
    (∃ i : QueryIntent, classifyQuery text = i) ∧
    (countMatches text dataKeywords = 0 ∧ countMatches text explKeywords = 0 →
      classifyQuery text =
        { qtype := QueryType.general, fspec := emptyFilterSpec }) ∧
    (countMatches text dataKeywords = countMatches text explKeywords ∧
      0 < countMatches text dataKeywords →
      (classifyQuery text).qtype = QueryType.data_query) ∧
    (countMatches text dataKeywords < countMatches text explKeywords →
      (classifyQuery text).qtype = QueryType.explanation) := by
  refine ⟨⟨_, rfl⟩, ?_, ?_, ?_⟩
  · rintro ⟨h1, h2⟩
    simp [classifyQuery, h1, h2]
  · rintro ⟨h1, h2⟩
    have hne : ¬(countMatches text dataKeywords = 0 ∧
        countMatches text explKeywords = 0) := by omega
    have hlt : ¬(countMatches text dataKeywords <
        countMatches text explKeywords) := by omega
    simp [classifyQuery, hne, hlt]
  · intro hgt
    have hne : ¬(countMatches text dataKeywords = 0 ∧
        countMatches text explKeywords = 0) := by omega
    simp [classifyQuery, hne, hgt]

/-- Witness for C7: an unrecognized query and an equal-score query. -/
theorem c7_classifier_witness :
    classifyQuery "hello there" =
      { qtype := QueryType.general, fspec := emptyFilterSpec } ∧
    (classifyQuery "why show data").qtype = QueryType.data_query :=
  ⟨(c7_classifier_total_default_tie "hello there").2.1 (by decide),
   (c7_classifier_total_default_tie "why show data").2.2.1 (by decide)⟩

/-- Claim C8: whenever the narration collaborator errors (or times out), the
assembled response still carries a non-empty templated summary built from
the SummaryStatistics, and no exception is propagated. -/
theorem c8_narration_fallback (gen : String → Except String String)
    (d : Dataset) (text : String) (opts : QueryOptions) (e : String)
    (h : gen (buildPrompt (classifyQuery text)
        (computeStats (applyFilter (classifyQuery text).fspec d))) =
      Except.error e) :
    ∃ qr : QueryResult, process_query gen d text opts = Except.ok qr ∧
      qr.text_response =
        templatedSummary
          (computeStats (applyFilter (classifyQuery text).fspec d)) ∧
      qr.text_response ≠ "" := by
  refine ⟨_, rfl, ?_, ?_⟩
  · show assembleText gen _ _ = _
    simp [assembleText, h]
  · show assembleText gen _ _ ≠ ""
    simp [assembleText, h]
    exact templatedSummary_ne_empty _

/-- Witness for C8 with an always-failing narration collaborator. -/
theorem c8_narration_fallback_witness :
    ∃ qr : QueryResult,
      process_query (fun _ => Except.error "timeout") demoDataset
        "show temperature" { include_visualization := true } =
        Except.ok qr ∧
      qr.text_response =
        templatedSummary (computeStats (applyFilter
          (classifyQuery "show temperature").fspec demoDataset)) ∧
      qr.text_response ≠ "" :=
  c8_narration_fallback (fun _ => Except.error "timeout") demoDataset
    "show temperature" { include_visualization := true } "timeout" rfl

/-- Claim C9: the chat client issues a backend request iff the input has a
non-whitespace character and input is not disabled; the issued message is
the trimmed input — in particular it is never empty or whitespace-only. -/
theorem c9_client_trims (s : List Char) (disabled : Bool) :
    ((clientSubmit s disabled).isSome = true ↔
      ((∃ c ∈ s, c.isWhitespace = false) ∧ disabled = false)) ∧
    (∀ t, clientSubmit s disabled = some t →
      t = jsTrim s ∧ t ≠ [] ∧ jsTrim t = t) := by
  have hiff : (∃ c ∈ s, c.isWhitespace = false) ↔ jsTrim s ≠ [] := by
    rw [Ne, jsTrim_eq_nil_iff]
    constructor
    · rintro ⟨c, hc, hw⟩ hall
      rw [hall c hc] at hw
      cases hw
    · intro h
      by_contra hno
      push_neg at hno
      apply h
      intro c hc
      cases hcw : c.isWhitespace
      · exact absurd hcw (hno c hc)
      · rfl
  have hcs : clientSubmit s disabled =
      if jsTrim s ≠ [] ∧ disabled = false then some (jsTrim s) else none := by
    by_cases he : jsTrim s = [] <;> by_cases hd : disabled <;>
      simp [clientSubmit, handleSubmit, sendMessage, strTruthy, he, hd,
        jsTrim_idem, List.isEmpty_iff]
  constructor
  · rw [hcs]
    by_cases h : jsTrim s ≠ [] ∧ disabled = false
    · simp only [if_pos h, Option.isSome_some, hiff]
      tauto
    · simp only [if_neg h, Option.isSome_none, hiff]
      constructor
      · intro hfalse
        cases hfalse
      · intro hx
        exact absurd hx h
  · intro t ht
    rw [hcs] at ht
    by_cases h : jsTrim s ≠ [] ∧ disabled = false
    · rw [if_pos h] at ht
      injection ht with ht
      subst ht
      exact ⟨rfl, h.1, jsTrim_idem s⟩
    · rw [if_neg h] at ht
      exact absurd ht (by simp)

/-- Witness for C9: a padded input on the enabled client. -/
theorem c9_client_trims_witness :
    (clientSubmit ("  hi  ".toList) false).isSome = true ∧
    ("hi".toList = jsTrim ("  hi  ".toList) ∧ "hi".toList ≠ [] ∧
      jsTrim ("hi".toList) = "hi".toList) :=
  ⟨(c9_client_trims ("  hi  ".toList) false).1.mpr
      ⟨⟨'h', by decide, by decide⟩, rfl⟩,
   (c9_client_trims ("  hi  ".toList) false).2 ("hi".toList) (by decide)⟩

/-- Claim C10: for a plot URL `data:text/html;base64,` ++ b, `openInNewTab`
and `downloadPlot` both recover `atob b` with no network fetch; composed
with `btoa`, an HTML payload embedded as base64 is displayed and downloaded
byte-for-byte. -/
theorem c10_plot_roundtrip (html : List Nat) (hb : ∀ x ∈ html, x < 256) :
    openInNewTab (plotUrlMarker ++ btoa html) = PlotAction.writesHtml html ∧
    downloadPlot (plotUrlMarker ++ btoa html) =
      DownloadAction.downloadsBlob html ∧
    (∀ b : List Char,
      openInNewTab (plotUrlMarker ++ b) = PlotAction.writesHtml (atob b) ∧
      downloadPlot (plotUrlMarker ++ b) =
        DownloadAction.downloadsBlob (atob b)) := by
  have hpre : ∀ b : List Char,
      plotUrlMarker.isPrefixOf (plotUrlMarker ++ b) = true := by
    intro b
    rw [List.isPrefixOf_iff_prefix]
    exact List.prefix_append _ _
  have hgen : ∀ b : List Char,
      openInNewTab (plotUrlMarker ++ b) = PlotAction.writesHtml (atob b) ∧
      downloadPlot (plotUrlMarker ++ b) =
        DownloadAction.downloadsBlob (atob b) := by
    intro b
    constructor
    · simp [openInNewTab, hpre b, List.drop_left]
    · simp [downloadPlot, hpre b, List.drop_left]
  refine ⟨?_, ?_, hgen⟩
  · rw [(hgen (btoa html)).1, atob_btoa html hb]
  · rw [(hgen (btoa html)).2, atob_btoa html hb]

/-- Witness for C10 at the two-byte payload "Hi". -/
theorem c10_plot_roundtrip_witness :
    openInNewTab (plotUrlMarker ++ btoa [72, 105]) =
      PlotAction.writesHtml [72, 105] ∧
    downloadPlot (plotUrlMarker ++ btoa [72, 105]) =
      DownloadAction.downloadsBlob [72, 105] :=
  ⟨(c10_plot_roundtrip [72, 105] (by decide)).1,
   (c10_plot_roundtrip [72, 105] (by decide)).2.1⟩
